import Mathlib

/-!
Verification development for the linien control-plane synchronization layer.

Part A embeds the client-side remote-parameter mirror
(`linien-client/linien_client/remote_parameters.py`): the `RemoteParameter`
handle class, the `RemoteParameters` mirror with its attribute lock, and the
`check_for_changed_parameters` poll routine.  Parameter values and other
opaque payloads are modelled as `Nat`; registered callback functions are
modelled as opaque identifiers (`Nat`) and their invocation as an event, so a
callback is an observer and does not itself mutate mirror state.  Network
interaction is made explicit: every poll receives a `PollInput` describing
whether the outstanding asynchronous calls are ready (and with which change
batch), and every operation returns the list of externally visible events
(requests issued, cache updates, callback invocations) it performs, in
program order.

Part B embeds the server-side acquisition supervisor and worker loop
(`linien-server/linien_server/acquisition/controller.py`).
-/

/-- Python errors surfaced by the embedded code. -/
inductive PyErr where
  | attributeError
  deriving DecidableEq

deriving instance DecidableEq for Except

/-- `name.startswith("_")`: whether the first character is an underscore
(spelled out over the character list so that it evaluates by reduction). -/
def startsWithUnderscore (a : String) : Bool :=
  match a.data with
  | [] => false
  | c :: _ => c = '_'

/-- A `RemoteParameter` handle (lines 28-78 of remote_parameters.py).
The `parent` back-reference is represented implicitly: operations that read
parent state take the parent `MirrorState` as an argument.  `cachedValue`
models the optional `_cached_value` instance attribute (`none` = the
attribute was never bound by `update_cache`). -/
structure RemoteParameter where
  name : String
  use_cache : Bool
  restorable : Bool
  loggable : Bool
  cachedValue : Option Nat
  deriving DecidableEq

/-- `RemoteParameter.update_cache` (line 77): binds `_cached_value`. -/
def RemoteParameter.update_cache (p : RemoteParameter) (v : Nat) : RemoteParameter :=
  { p with cachedValue := some v }

/-- The `value` property getter (lines 45-50): return the locally cached
value if `_cached_value` is bound, otherwise ask the server (`srv` is the
server's `exposed_get_param` oracle). -/
def RemoteParameter.value (srv : String → Nat) (p : RemoteParameter) : Nat :=
  match p.cachedValue with
  | some v => v
  | none => srv p.name

/-- A value bound in the Python attribute dictionary of a `RemoteParameters`
instance: either a parameter handle (set by `__init__` via `setattr`) or a
plain object (e.g. the `remote` and `uuid` attributes, or anything a caller
assigns later). -/
inductive PyObj where
  | param (p : RemoteParameter)
  | plain (n : Nat)
  deriving DecidableEq

/-- State of a `RemoteParameters` mirror (lines 81-172).  `attrs` is the
part of the instance dictionary holding the frozen handle set plus plain
attributes; the internal fields `_async_changed_parameters_queue`,
`_async_listener_registering`, `_listeners_pending_remote_registration`,
`_callbacks` and `_attributes_locked` are modelled as dedicated fields.
`fetchOutstanding` is `true` iff `_async_changed_parameters_queue` is not
`None`; `regOutstanding` likewise for `_async_listener_registering`. -/
structure MirrorState where
  attrs : List (String × PyObj)
  fetchOutstanding : Bool
  regOutstanding : Bool
  pending : List String
  callbacks : List (String × List Nat)
  attributesLocked : Bool
  deriving DecidableEq

/-- Externally visible actions of the mirror, in program order. -/
inductive MirrorEvent where
  | fetchIssued
  | fetchConsumed
  | regIssued (names : List String)
  | regConsumed
  | cacheUpdated (name : String) (value : Nat)
  | callbackInvoked (cb : Nat) (name : String) (value : Nat)
  | setParamSent (name : String) (value : Nat)
  deriving DecidableEq

/-- The environment's answer for one `check_for_changed_parameters` call:
`fetchResult = some q` means the outstanding changed-parameters future is
ready and holds batch `q`; `regReady` means the outstanding listener
registration future is ready. -/
structure PollInput where
  fetchResult : Option (List (String × Nat))
  regReady : Bool
  deriving DecidableEq

/-- Association-list lookup (Python attribute/dict lookup). -/
def lookupEntry {A : Type} : List (String × A) → String → Option A
  | [], _ => none
  | (k, v) :: rest, n => if k = n then some v else lookupEntry rest n

/-- Association-list update-or-insert (Python attribute/dict assignment). -/
def setEntry {A : Type} : List (String × A) → String → A → List (String × A)
  | [], n, v => [(n, v)]
  | (k, w) :: rest, n, v => if k = n then (n, v) :: rest else (k, w) :: setEntry rest n v

/-- `True` iff attribute `n` of the mirror is bound to a parameter handle,
i.e. `n` is in the frozen parameter set. -/
def isParamAttr (attrs : List (String × PyObj)) (n : String) : Bool :=
  match lookupEntry attrs n with
  | some (PyObj.param _) => true
  | _ => false

/-- The first loop of the batch-consumption branch (lines 224-229): for each
`(param_name, value)` of the batch, `getattr(self, param_name)` (an
AttributeError if the attribute is missing, and accessing `.use_cache` on a
non-handle attribute is likewise an AttributeError) and, for handles with
`use_cache`, `param.update_cache(value)`.  Returns the updated attribute
dictionary and the cache-update events in loop order.  On error the whole
poll is reported failed (the Python exception propagates out of the call). -/
def updateCaches : List (String × PyObj) → List (String × Nat) →
    Except PyErr (List (String × PyObj) × List MirrorEvent)
  | attrs, [] => Except.ok (attrs, [])
  | attrs, (n, v) :: rest =>
    match lookupEntry attrs n with
    | some (PyObj.param p) =>
      if p.use_cache then
        match updateCaches (setEntry attrs n (PyObj.param (p.update_cache v))) rest with
        | Except.error e => Except.error e
        | Except.ok (attrs2, evs) => Except.ok (attrs2, MirrorEvent.cacheUpdated n v :: evs)
      else updateCaches attrs rest
    | _ => Except.error PyErr.attributeError

/-- The cache-update events the first loop performs on batch `q`, described
directly from the pre-loop attribute dictionary (one `cacheUpdated` per
batch entry whose handle has `use_cache`, in batch order). -/
def cacheEventsOf (attrs : List (String × PyObj)) : List (String × Nat) → List MirrorEvent
  | [] => []
  | (n, v) :: rest =>
    (match lookupEntry attrs n with
     | some (PyObj.param p) => if p.use_cache then [MirrorEvent.cacheUpdated n v] else []
     | _ => []) ++ cacheEventsOf attrs rest

/-- The second loop of the batch-consumption branch (lines 231-235): for each
batch entry in delivery order, if its name has registered callbacks, invoke
each of them with the new value. -/
def callbackEventsOf (cbs : List (String × List Nat)) : List (String × Nat) → List MirrorEvent
  | [] => []
  | (n, v) :: rest =>
    (match lookupEntry cbs n with
     | some fns => fns.map fun f => MirrorEvent.callbackInvoked f n v
     | none => []) ++ callbackEventsOf cbs rest

/-- Lines 188-195: if no changed-parameters call is outstanding, issue one. -/
def pollStep1 (s : MirrorState) : MirrorState × List MirrorEvent :=
  if s.fetchOutstanding then (s, [])
  else ({ s with fetchOutstanding := true }, [MirrorEvent.fetchIssued])

/-- Lines 197-208: if no registration call is outstanding and the pending
list is non-empty, snapshot the pending list, issue the registration call
with the snapshot, and clear the list. -/
def pollStep2 (s : MirrorState) : MirrorState × List MirrorEvent :=
  if !s.regOutstanding && !s.pending.isEmpty then
    ({ s with regOutstanding := true, pending := [] }, [MirrorEvent.regIssued s.pending])
  else (s, [])

/-- Lines 210-235: if the changed-parameters future is ready, consume its
batch, immediately re-issue the next fetch, update all caches, then invoke
the callbacks.  (In the source the re-issue on line 220 happens before the
cache-update loop; the event order records this.) -/
def pollStep3 (s : MirrorState) (fetchResult : Option (List (String × Nat))) :
    Except PyErr (MirrorState × List MirrorEvent) :=
  match fetchResult with
  | none => Except.ok (s, [])
  | some q =>
    match updateCaches s.attrs q with
    | Except.error e => Except.error e
    | Except.ok (attrs2, cacheEvs) =>
      Except.ok ({ s with attrs := attrs2 },
        MirrorEvent.fetchConsumed :: MirrorEvent.fetchIssued ::
          (cacheEvs ++ callbackEventsOf s.callbacks q))

/-- Lines 237-243: if the registration future is ready, clear the marker. -/
def pollStep4 (s : MirrorState) (regReady : Bool) : MirrorState × List MirrorEvent :=
  if s.regOutstanding && regReady then
    ({ s with regOutstanding := false }, [MirrorEvent.regConsumed])
  else (s, [])

/-- `RemoteParameters.check_for_changed_parameters` (lines 174-243), as the
sequential composition of its four sections. -/
def check_for_changed_parameters (s : MirrorState) (inp : PollInput) :
    Except PyErr (MirrorState × List MirrorEvent) :=
  let r1 := pollStep1 s
  let r2 := pollStep2 r1.1
  match pollStep3 r2.1 inp.fetchResult with
  | Except.error e => Except.error e
  | Except.ok r3 =>
    let r4 := pollStep4 r3.1 inp.regReady
    Except.ok (r4.1, r1.2 ++ (r2.2 ++ (r3.2 ++ r4.2)))

/-- A sequence of `check_for_changed_parameters` calls, threading state and
concatenating events. -/
def runPolls (s : MirrorState) : List PollInput →
    Except PyErr (MirrorState × List MirrorEvent)
  | [] => Except.ok (s, [])
  | inp :: rest =>
    match check_for_changed_parameters s inp with
    | Except.error e => Except.error e
    | Except.ok (s1, evs) =>
      match runPolls s1 rest with
      | Except.error e => Except.error e
      | Except.ok (s2, evs2) => Except.ok (s2, evs ++ evs2)

/-- One entry of the inventory returned by `exposed_init_parameter_sync`. -/
structure ParameterInfo where
  name : String
  value : Nat
  can_be_cached : Bool
  restorable : Bool
  loggable : Bool
  deriving DecidableEq

/-- The attribute dictionary built by `RemoteParameters.__init__`
(lines 127-151): `remote` and `uuid` are bound first, then one handle per
inventory entry, with the cache seeded for handles that use it. -/
def initialAttrs (inv : List ParameterInfo) (uuid : Nat) (use_cache : Bool) :
    List (String × PyObj) :=
  (inv.map fun info =>
    (info.name, PyObj.param
      { name := info.name
        use_cache := use_cache && info.can_be_cached
        restorable := info.restorable
        loggable := info.loggable
        cachedValue := if use_cache && info.can_be_cached then some info.value else none })).foldl
    (fun attrs e => setEntry attrs e.1 e.2)
    [("remote", PyObj.plain 0), ("uuid", PyObj.plain uuid)]

/-- `RemoteParameters.__init__` (lines 127-154): build the handle set, lock
the attributes, then run one initial `check_for_changed_parameters` (whose
environment answer is `inp0`). -/
def constructMirror (inv : List ParameterInfo) (uuid : Nat) (use_cache : Bool)
    (inp0 : PollInput) : Except PyErr (MirrorState × List MirrorEvent) :=
  check_for_changed_parameters
    { attrs := initialAttrs inv uuid use_cache
      fetchOutstanding := false
      regOutstanding := false
      pending := []
      callbacks := []
      attributesLocked := true } inp0

/-- `RemoteParameters.__setattr__` (lines 161-172): once `_attributes_locked`
is bound and true, assigning any attribute whose name does not start with an
underscore (`name.startswith("_")`) raises `AttributeError`; otherwise the
assignment is performed (`super().__setattr__`). -/
def MirrorState.setAttr (s : MirrorState) (a : String) (v : PyObj) :
    Except PyErr MirrorState :=
  if s.attributesLocked && !(startsWithUnderscore a) then Except.error PyErr.attributeError
  else Except.ok { s with attrs := setEntry s.attrs a v }

/-- The Python attribute set of a `RemoteParameter` instance: `__init__`
(lines 31-43) binds exactly `name`, `parent`, `use_cache`, `restorable` and
`loggable`; `update_cache` (line 77) later binds `_cached_value`.  No other
attribute is ever bound on a handle anywhere in the source. -/
def RemoteParameter.hasPyAttr (p : RemoteParameter) (a : String) : Bool :=
  a = "name" || a = "parent" || a = "use_cache" || a = "restorable" || a = "loggable" ||
    (a = "_cached_value" && p.cachedValue.isSome)

/-- `RemoteParameter.add_callback` (lines 57-71).  Its first statement
evaluates the membership test `self.name not in self._callbacks`, which
looks up the attribute `_callbacks` on the handle itself; the callback
dictionary is bound on the parent (`self.parent._callbacks`), never on the
handle, so the lookup raises `AttributeError` before any registration
happens.  The success branch is therefore unreachable and is modelled as a
no-op. -/
def RemoteParameter.add_callback (s : MirrorState) (p : RemoteParameter) (cb : Nat)
    (call_with_first_value : Bool) : Except PyErr (MirrorState × List MirrorEvent) :=
  if p.hasPyAttr "_callbacks" then Except.ok (s, [])
  else Except.error PyErr.attributeError

/-- The `value` property setter (lines 52-55): a single
`exposed_set_param` call to the server; no local state is touched. -/
def RemoteParameter.setValue (s : MirrorState) (p : RemoteParameter) (v : Nat) :
    MirrorState × List MirrorEvent :=
  (s, [MirrorEvent.setParamSent p.name v])

/-- Last value delivered for name `n` in batch `q` (if any). -/
def lastVal : List (String × Nat) → String → Option Nat
  | [], _ => none
  | (m, v) :: rest, n =>
    match lastVal rest n with
    | some w => some w
    | none => if m = n then some v else none

/-- `read(name)` through the mirror: the `value` getter of the handle bound
at `name`, `none` if `name` is not bound to a handle. -/
def readParam (s : MirrorState) (srv : String → Nat) (n : String) : Option Nat :=
  match lookupEntry s.attrs n with
  | some (PyObj.param p) => some (p.value srv)
  | _ => none

/-- A concrete inventory (the spec's scenario: a cacheable `speed` and a
non-cacheable `status`). -/
def exampleInventory : List ParameterInfo :=
  [{ name := "speed", value := 10, can_be_cached := true, restorable := true, loggable := true },
   { name := "status", value := 0, can_be_cached := false, restorable := false, loggable := true }]

/-- Fallback state (never reached; see `constructMirror_example_ok`). -/
def fallbackMirror : MirrorState :=
  { attrs := [], fetchOutstanding := false, regOutstanding := false,
    pending := [], callbacks := [], attributesLocked := false }

/-- The result of constructing a mirror over `exampleInventory` with caching
enabled, the initial poll's future not yet ready. -/
def exConstructResult : MirrorState × List MirrorEvent :=
  match constructMirror exampleInventory 1 true { fetchResult := none, regReady := false } with
  | Except.ok r => r
  | Except.error _ => (fallbackMirror, [])

/-- The constructed example mirror state. -/
def exampleMirror : MirrorState := exConstructResult.1

/-!
Part B: the acquisition supervisor and worker loop
(`linien-server/linien_server/acquisition/controller.py`).  Command
payloads are modelled as `List Nat` (booleans as 0/1, tuples as lists);
the acquired data available to the worker at each loop iteration is a
`DataItem`.  The worker's service (`AcquisitionService`) is not under
`src/`; its `exposed_return_data` query is modelled from the spec.
-/

/-- The `AcquisitionProcessSignals` enum (lines 32-42). -/
inductive AcquisitionProcessSignals where
  | SHUTDOWN
  | SET_SWEEP_SPEED
  | SET_LOCK_STATUS
  | SET_CSR
  | SET_IIR_CSR
  | PAUSE_ACQUISIITON
  | CONTINUE_ACQUISITION
  | FETCH_QUADRATURES
  | SET_RAW_ACQUISITION
  | SET_DUAL_CHANNEL
  deriving DecidableEq

/-- A message the supervisor sends over the command pipe: the tagged tuple
`(signal, payload...)`. -/
structure PipeMessage where
  tag : AcquisitionProcessSignals
  payload : List Nat
  deriving DecidableEq

/-- An operation of the worker-side acquisition service, named after the
`exposed_*` method the worker loop calls for the corresponding tag. -/
inductive ServiceOp where
  | exposed_set_sweep_speed (args : List Nat)
  | exposed_set_lock_status (args : List Nat)
  | exposed_set_fetch_additional_signals (args : List Nat)
  | exposed_set_raw_acquisition (args : List Nat)
  | exposed_set_dual_channel (args : List Nat)
  | exposed_set_csr (args : List Nat)
  | exposed_set_iir_csr (args : List Nat)
  | exposed_pause_acquisition
  | exposed_continue_acquisition (args : List Nat)
  deriving DecidableEq

/-- Externally visible actions of the worker loop. -/
inductive WorkerEvent where
  | dispatched (op : ServiceOp)
  | pulled (lastHash : Option Nat)
  | pushed (is_raw : Bool) (payload : Nat) (uuid : Nat) (hash : Nat)
  deriving DecidableEq

/-- The dispatch table of the worker main loop (lines 97-117): `SHUTDOWN`
raises `SystemExit` (`none`); every other tag is dispatched to the
corresponding service operation with the message payload. -/
def dispatchSignal (m : PipeMessage) : Option ServiceOp :=
  match m.tag with
  | AcquisitionProcessSignals.SHUTDOWN => none
  | AcquisitionProcessSignals.SET_SWEEP_SPEED => some (ServiceOp.exposed_set_sweep_speed m.payload)
  | AcquisitionProcessSignals.SET_LOCK_STATUS => some (ServiceOp.exposed_set_lock_status m.payload)
  | AcquisitionProcessSignals.FETCH_QUADRATURES => some (ServiceOp.exposed_set_fetch_additional_signals m.payload)
  | AcquisitionProcessSignals.SET_RAW_ACQUISITION => some (ServiceOp.exposed_set_raw_acquisition m.payload)
  | AcquisitionProcessSignals.SET_DUAL_CHANNEL => some (ServiceOp.exposed_set_dual_channel m.payload)
  | AcquisitionProcessSignals.SET_CSR => some (ServiceOp.exposed_set_csr m.payload)
  | AcquisitionProcessSignals.SET_IIR_CSR => some (ServiceOp.exposed_set_iir_csr m.payload)
  | AcquisitionProcessSignals.PAUSE_ACQUISIITON => some ServiceOp.exposed_pause_acquisition
  | AcquisitionProcessSignals.CONTINUE_ACQUISITION => some (ServiceOp.exposed_continue_acquisition m.payload)

/-- The inner `while pipe.poll()` drain (lines 95-117): process queued
messages in order; a `SHUTDOWN` message raises `SystemExit` immediately
(second component `true`), leaving every later queued message unprocessed. -/
def drainCommands : List PipeMessage → List WorkerEvent × Bool
  | [] => ([], false)
  | m :: rest =>
    match dispatchSignal m with
    | none => ([], true)
    | some op =>
      let r := drainCommands rest
      (WorkerEvent.dispatched op :: r.1, r.2)

/-- The underlying acquired data visible to the worker at one loop
iteration: its content hash, rawness flag, payload and correlation id. -/
structure DataItem where
  hash : Nat
  is_raw : Bool
  payload : Nat
  uuid : Nat
  deriving DecidableEq

/-- The 5-tuple returned by the service's `exposed_return_data`. -/
structure ReturnData where
  new_data_returned : Bool
  new_hash : Nat
  data_was_raw : Bool
  new_data : Nat
  data_uuid : Nat
  deriving DecidableEq

/-- Modelled from the spec: `AcquisitionService.exposed_return_data` (the
worker data-pull query) is not under `src/`.  Per spec section 6 it returns
`(changed, new_hash, is_raw, payload, correlation_id)`, and per sections 3
and 8 it reports changed data exactly when the content hash of the current
data differs from the caller's last delivered hash (so two consecutive
calls with identical underlying data never both report a change). -/
def exposed_return_data (lastHash : Option Nat) (d : DataItem) : ReturnData :=
  { new_data_returned := decide (some d.hash ≠ lastHash)
    new_hash := d.hash
    data_was_raw := d.is_raw
    new_data := d.payload
    data_uuid := d.uuid }

/-- The environment of one iteration of the worker main loop: the messages
queued on the pipe and the currently acquired data. -/
structure TickInput where
  commands : List PipeMessage
  data : DataItem
  deriving DecidableEq

/-- Result of running (part of) the worker main loop: events in program
order, the final `last_hash`, and whether `SystemExit` was raised. -/
structure TickResult where
  events : List WorkerEvent
  lastHash : Option Nat
  terminated : Bool
  deriving DecidableEq

/-- One iteration of the worker main loop (lines 93-131): drain queued
commands (stopping at `SHUTDOWN`), then, if still running, call
`exposed_return_data(last_hash)`; if it reports new data, set
`last_hash = new_hash` and push `(data_was_raw, new_data, data_uuid)` to
the supervisor. -/
def workerTick (lastHash : Option Nat) (t : TickInput) : TickResult :=
  let d := drainCommands t.commands
  if d.2 then { events := d.1, lastHash := lastHash, terminated := true }
  else
    let r := exposed_return_data lastHash t.data
    if r.new_data_returned then
      { events := d.1 ++ [WorkerEvent.pulled lastHash,
          WorkerEvent.pushed r.data_was_raw r.new_data r.data_uuid r.new_hash]
        lastHash := some r.new_hash
        terminated := false }
    else
      { events := d.1 ++ [WorkerEvent.pulled lastHash]
        lastHash := lastHash
        terminated := false }

/-- The worker main loop over a finite environment script, starting from
`last_hash = lastHash` (initially `None`, line 92); it stops as soon as a
tick raises `SystemExit`. -/
def runWorker (lastHash : Option Nat) : List TickInput → TickResult
  | [] => { events := [], lastHash := lastHash, terminated := false }
  | t :: rest =>
    let r := workerTick lastHash t
    if r.terminated then { events := r.events, lastHash := r.lastHash, terminated := true }
    else
      let r2 := runWorker r.lastHash rest
      { events := r.events ++ r2.events, lastHash := r2.lastHash, terminated := r2.terminated }

/-- The content hashes of the frames pushed in an event list, in order. -/
def pushedHashes : List WorkerEvent → List Nat
  | [] => []
  | WorkerEvent.pushed _ _ _ h :: rest => h :: pushedHashes rest
  | _ :: rest => pushedHashes rest

/-- `true` iff the event list contains a frame push. -/
def hasPushEvent (evs : List WorkerEvent) : Bool :=
  !(pushedHashes evs).isEmpty

/-- The hash of the last delivered frame, starting from `init` when no frame
was delivered. -/
def lastDelivered (init : Option Nat) : List Nat → Option Nat
  | [] => init
  | h :: rest => lastDelivered (some h) rest

/-- `true` iff no pushed hash equals the hash delivered just before it
(taking `init` as the hash delivered before the list starts). -/
def noAdjacentDup (init : Option Nat) : List Nat → Bool
  | [] => true
  | h :: rest => decide (some h ≠ init) && noAdjacentDup (some h) rest

/-- Events of the supervisor (`AcquisitionController`) methods. -/
inductive SupervisorEvent where
  | sent (m : PipeMessage)
  | startNginxCalled
  deriving DecidableEq

/-- `AcquisitionController.pause_acquisition` (lines 133-134). -/
def AcquisitionController.pause_acquisition : List SupervisorEvent :=
  [SupervisorEvent.sent { tag := AcquisitionProcessSignals.PAUSE_ACQUISIITON, payload := [1] }]

/-- `AcquisitionController.continue_acquisition` (lines 136-137). -/
def AcquisitionController.continue_acquisition (uuid : Nat) : List SupervisorEvent :=
  [SupervisorEvent.sent { tag := AcquisitionProcessSignals.CONTINUE_ACQUISITION, payload := [uuid] }]

/-- `AcquisitionController.shutdown` (lines 139-142): send `(SHUTDOWN,)`
(`parent_conn` is bound in `__init__` and never cleared, so the guard is
always true), then call `start_nginx()`. -/
def AcquisitionController.shutdown : List SupervisorEvent :=
  [SupervisorEvent.sent { tag := AcquisitionProcessSignals.SHUTDOWN, payload := [] },
   SupervisorEvent.startNginxCalled]

/-- `AcquisitionController.set_sweep_speed` (lines 144-145). -/
def AcquisitionController.set_sweep_speed (speed : Nat) : List SupervisorEvent :=
  [SupervisorEvent.sent { tag := AcquisitionProcessSignals.SET_SWEEP_SPEED, payload := [speed] }]

/-- `AcquisitionController.set_lock_status` (lines 147-149). -/
def AcquisitionController.set_lock_status (status : Nat) : List SupervisorEvent :=
  [SupervisorEvent.sent { tag := AcquisitionProcessSignals.SET_LOCK_STATUS, payload := [status] }]

/-- `AcquisitionController.fetch_additional_signals` (lines 151-153). -/
def AcquisitionController.fetch_additional_signals (status : Nat) : List SupervisorEvent :=
  [SupervisorEvent.sent { tag := AcquisitionProcessSignals.FETCH_QUADRATURES, payload := [status] }]

/-- `AcquisitionController.set_csr` (lines 155-156). -/
def AcquisitionController.set_csr (key value : Nat) : List SupervisorEvent :=
  [SupervisorEvent.sent { tag := AcquisitionProcessSignals.SET_CSR, payload := [key, value] }]

/-- `AcquisitionController.set_iir_csr` (lines 158-159). -/
def AcquisitionController.set_iir_csr (args : List Nat) : List SupervisorEvent :=
  [SupervisorEvent.sent { tag := AcquisitionProcessSignals.SET_IIR_CSR, payload := args }]

/-- `AcquisitionController.set_raw_acquisition` (lines 161-164). -/
def AcquisitionController.set_raw_acquisition (enabled decimation : Nat) : List SupervisorEvent :=
  [SupervisorEvent.sent { tag := AcquisitionProcessSignals.SET_RAW_ACQUISITION, payload := [enabled, decimation] }]

/-- `AcquisitionController.set_dual_channel` (lines 166-167). -/
def AcquisitionController.set_dual_channel (enabled : Nat) : List SupervisorEvent :=
  [SupervisorEvent.sent { tag := AcquisitionProcessSignals.SET_DUAL_CHANNEL, payload := [enabled] }]

/-- The supervisor lifetime, as far as `start_nginx` is concerned:
`__init__` registers `self.shutdown` with `atexit` (line 65) and never
unregisters it; each explicit `shutdown()` call runs the method body once;
when the process-exit hooks run (normal interpreter exit, including exit
triggered by abnormal termination that still unwinds), the registered hook
runs `shutdown()` once more. -/
def supervisorLifetimeEvents (explicitShutdownCalls : Nat) (exitHooksRun : Bool) :
    List SupervisorEvent :=
  (List.replicate explicitShutdownCalls AcquisitionController.shutdown).flatten ++
    (if exitHooksRun then AcquisitionController.shutdown else [])

/-- Number of `start_nginx` invocations in a supervisor event list. -/
def startNginxCount (evs : List SupervisorEvent) : Nat :=
  evs.count SupervisorEvent.startNginxCalled

/-!
Auxiliary definitions used to state the claims.
-/

/-- Request-token discipline for the changed-parameters channel: scanning an
event list with `outstanding` = whether a fetch request is currently in
flight, a fetch may be issued only when none is in flight and consumed only
when one is.  Holding this predicate is exactly the claim that at most one
fetch request is outstanding at every point of the trace. -/
def fetchTokensOK : Bool → List MirrorEvent → Bool
  | _, [] => true
  | outstanding, MirrorEvent.fetchIssued :: rest => !outstanding && fetchTokensOK true rest
  | outstanding, MirrorEvent.fetchConsumed :: rest => outstanding && fetchTokensOK false rest
  | outstanding, _ :: rest => fetchTokensOK outstanding rest

/-- The in-flight flag for the changed-parameters channel after an event
list. -/
def afterFetchEvents : Bool → List MirrorEvent → Bool
  | b, [] => b
  | _, MirrorEvent.fetchIssued :: rest => afterFetchEvents true rest
  | _, MirrorEvent.fetchConsumed :: rest => afterFetchEvents false rest
  | b, _ :: rest => afterFetchEvents b rest

/-- Request-token discipline for the listener-registration channel; in
addition, a registration may only be issued with a non-empty name list
(the snapshot of a non-empty pending list). -/
def regTokensOK : Bool → List MirrorEvent → Bool
  | _, [] => true
  | outstanding, MirrorEvent.regIssued ns :: rest =>
    !outstanding && !ns.isEmpty && regTokensOK true rest
  | outstanding, MirrorEvent.regConsumed :: rest => outstanding && regTokensOK false rest
  | outstanding, _ :: rest => regTokensOK outstanding rest

/-- The in-flight flag for the listener-registration channel after an event
list. -/
def afterRegEvents : Bool → List MirrorEvent → Bool
  | b, [] => b
  | _, MirrorEvent.regIssued _ :: rest => afterRegEvents true rest
  | _, MirrorEvent.regConsumed :: rest => afterRegEvents false rest
  | b, _ :: rest => afterRegEvents b rest

/-- A concrete poll-input script for witnesses: one ready batch, then an
idle tick with the registration (vacuously) ready. -/
def exInputs : List PollInput :=
  [{ fetchResult := some [("speed", 5), ("speed", 7)], regReady := false },
   { fetchResult := none, regReady := true }]

/-- The result of running `exInputs` on the constructed example mirror. -/
def exRunResult : MirrorState × List MirrorEvent :=
  match runPolls exConstructResult.1 exInputs with
  | Except.ok r => r
  | Except.error _ => (fallbackMirror, [])

/-- The example non-cached `status` handle as built by `constructMirror`. -/
def exampleStatusParam : RemoteParameter :=
  { name := "status", use_cache := false, restorable := false, loggable := true,
    cachedValue := none }

/-- The nine command tags enumerated by the claim (and by the spec's
**Command** data-model entry): shutdown, set-sweep-speed, set-lock-status,
set-control-register, set-iir-register, pause-acquisition,
continue-acquisition, set-raw-acquisition, set-dual-channel. -/
def claimNineTags : List AcquisitionProcessSignals :=
  [AcquisitionProcessSignals.SHUTDOWN,
   AcquisitionProcessSignals.SET_SWEEP_SPEED,
   AcquisitionProcessSignals.SET_LOCK_STATUS,
   AcquisitionProcessSignals.SET_CSR,
   AcquisitionProcessSignals.SET_IIR_CSR,
   AcquisitionProcessSignals.PAUSE_ACQUISIITON,
   AcquisitionProcessSignals.CONTINUE_ACQUISITION,
   AcquisitionProcessSignals.SET_RAW_ACQUISITION,
   AcquisitionProcessSignals.SET_DUAL_CHANNEL]

/-- The ten tags actually used by the supervisor and the worker dispatch
table: the nine of the claim plus `FETCH_QUADRATURES`. -/
def allCommandTags : List AcquisitionProcessSignals :=
  claimNineTags ++ [AcquisitionProcessSignals.FETCH_QUADRATURES]

/-- The tags of the messages sent in a supervisor event list. -/
def sentTags : List SupervisorEvent → List AcquisitionProcessSignals
  | [] => []
  | SupervisorEvent.sent m :: rest => m.tag :: sentTags rest
  | _ :: rest => sentTags rest

/-- Events that touch neither outstanding-request marker. -/
def mirrorNeutralEvent : MirrorEvent → Bool
  | MirrorEvent.cacheUpdated _ _ => true
  | MirrorEvent.callbackInvoked _ _ _ => true
  | MirrorEvent.setParamSent _ _ => true
  | _ => false

/-!
Theorems.  General lemmas about the embedded operations come first; the
claim theorems and their witnesses/counterexamples follow.
-/

lemma lookupEntry_setEntry {A : Type} (l : List (String × A)) (k n : String) (v : A) :
    lookupEntry (setEntry l k v) n = if k = n then some v else lookupEntry l n := by
  induction l with
  | nil => by_cases h : k = n <;> simp [setEntry, lookupEntry, h]
  | cons hd tl ih =>
    obtain ⟨k0, w⟩ := hd
    by_cases h0 : k0 = k
    · subst h0
      by_cases h1 : k0 = n <;> simp [setEntry, lookupEntry, h1]
    · by_cases h1 : k0 = n
      · subst h1
        have hk : ¬k = k0 := fun h => h0 h.symm
        simp [setEntry, lookupEntry, h0, hk]
      · simp [setEntry, lookupEntry, h0, h1, ih]



/-- C3: the claim says `add_callback(fn, invoke_with_current)` appends `fn`
to the handle's callback list, appends the name of a non-cache-backed handle
to the pending-registration list, and (with `invoke_with_current`) invokes
`fn` once synchronously.  The code cannot do any of this: its first
statement reads `self._callbacks` on the handle, an attribute that is only
ever bound on the parent mirror, so every call raises `AttributeError`.
This theorem evaluates the embedded method at the failing input (the
example non-cached `status` handle of the constructed example mirror). -/
theorem add_callback_attribute_error_at_failing_input :
    RemoteParameter.add_callback exampleMirror exampleStatusParam 0 true =
      Except.error PyErr.attributeError := rfl

/-- No `RemoteParameter` instance ever has a `_callbacks` attribute. -/
lemma hasPyAttr_callbacks_false (p : RemoteParameter) :
    p.hasPyAttr "_callbacks" = false := by
  simp [RemoteParameter.hasPyAttr]

/-- `add_callback` raises `AttributeError` on every handle, every callback
and both values of `call_with_first_value`. -/
lemma add_callback_always_raises (s : MirrorState) (p : RemoteParameter) (cb : Nat)
    (b : Bool) :
    RemoteParameter.add_callback s p cb b = Except.error PyErr.attributeError := by
  simp [RemoteParameter.add_callback, hasPyAttr_callbacks_false]

/-- C4 counterexample: the claim quantifies over every name not in the
frozen parameter set, but the lock in `__setattr__` exempts every
underscore-prefixed name: on the constructed (locked) example mirror,
assigning the attribute `_x` — a name that is not in the frozen parameter
set — succeeds without any error and rebinds `_x`. -/
theorem setattr_underscore_name_no_error_cex :
    isParamAttr exampleMirror.attrs "_x" = false ∧
    exampleMirror.attributesLocked = true ∧
    MirrorState.setAttr exampleMirror "_x" (PyObj.plain 7) =
      Except.ok { exampleMirror with attrs := setEntry exampleMirror.attrs "_x" (PyObj.plain 7) } :=
  ⟨by decide, by decide, by decide⟩

/-- C4 (amended): on a constructed (locked) mirror, assigning any attribute
whose name does not start with an underscore — whether the name is absent
from the frozen parameter set or names an existing frozen handle — raises
an `AttributeError` and leaves the mirror unchanged (the embedded
assignment is pure and returns no successor state on error); names starting
with an underscore are exempt from the lock. -/
theorem setattr_locked_nonunderscore_raises (s : MirrorState) (a : String) (v : PyObj)
    (hl : s.attributesLocked = true) (h : startsWithUnderscore a = false) :
    MirrorState.setAttr s a v = Except.error PyErr.attributeError := by
  simp [MirrorState.setAttr, hl, h]

/-- Witness for C4 (amended): attempting to rebind the frozen `speed`
handle on the constructed example mirror raises `AttributeError`. -/
theorem setattr_locked_nonunderscore_raises_witness :
    MirrorState.setAttr exampleMirror "speed" (PyObj.plain 3) =
      Except.error PyErr.attributeError :=
  setattr_locked_nonunderscore_raises exampleMirror "speed" (PyObj.plain 3)
    (by decide) (by decide)

/-- C10: the post-construction attribute lock of `__setattr__` exempts
every attribute name that starts with an underscore: even on a locked
mirror the assignment succeeds (performing the rebinding), so the no-rebind
invariant protects only non-underscore names.  In the source the mirror's
internal state (`_callbacks`, `_listeners_pending_remote_registration`, the
two `_async_*` markers) is stored under such names, so all of it can be
rebound without error. -/
theorem setattr_underscore_exempt (s : MirrorState) (a : String) (v : PyObj)
    (h : startsWithUnderscore a = true) :
    MirrorState.setAttr s a v = Except.ok { s with attrs := setEntry s.attrs a v } := by
  simp [MirrorState.setAttr, h]

/-- Witness for C10: rebinding `_callbacks` on the locked example mirror
succeeds. -/
theorem setattr_underscore_exempt_witness :
    MirrorState.setAttr exampleMirror "_callbacks" (PyObj.plain 5) =
      Except.ok { exampleMirror with attrs := setEntry exampleMirror.attrs "_callbacks" (PyObj.plain 5) } :=
  setattr_underscore_exempt exampleMirror "_callbacks" (PyObj.plain 5) (by decide)

/-- C8: writing a handle's value issues exactly one `exposed_set_param`
call carrying the handle's name and the new value, and changes no local
mirror state at all: the attribute dictionary (hence the writing handle's
and every other handle's cached value), the callback lists and the
pending-registration list are those of the pre-write state. -/
theorem set_value_single_rpc_no_local_change (s : MirrorState) (p : RemoteParameter) (v : Nat) :
    RemoteParameter.setValue s p v = (s, [MirrorEvent.setParamSent p.name v]) ∧
    (RemoteParameter.setValue s p v).1.attrs = s.attrs ∧
    (RemoteParameter.setValue s p v).1.callbacks = s.callbacks ∧
    (RemoteParameter.setValue s p v).1.pending = s.pending ∧
    (RemoteParameter.setValue s p v).2.length = 1 :=
  ⟨rfl, rfl, rfl, rfl, rfl⟩

lemma startNginxCount_append (l1 l2 : List SupervisorEvent) :
    startNginxCount (l1 ++ l2) = startNginxCount l1 + startNginxCount l2 := by
  simp [startNginxCount, List.count_append]

lemma startNginxCount_replicate_shutdown (n : Nat) :
    startNginxCount (List.replicate n AcquisitionController.shutdown).flatten = n := by
  induction n with
  | zero => decide
  | succ k ih =>
    have : (List.replicate (k + 1) AcquisitionController.shutdown).flatten =
        AcquisitionController.shutdown ++
          (List.replicate k AcquisitionController.shutdown).flatten := by
      simp [List.replicate_succ]
    rw [this, startNginxCount_append, ih]
    have h1 : startNginxCount AcquisitionController.shutdown = 1 := rfl
    omega

/-- C9 counterexample: the claim says the compensating restore action
(`start_nginx`) runs exactly once per supervisor lifetime.  `shutdown` is
both a public method and the registered `atexit` hook, with no once-guard
(`parent_conn` is never cleared and the hook is never unregistered), so a
lifetime with one explicit `shutdown()` call followed by interpreter exit
runs `start_nginx` twice. -/
theorem start_nginx_twice_cex :
    startNginxCount (supervisorLifetimeEvents 1 true) = 2 := by decide

/-- C9 (amended): `start_nginx` runs once per explicit `shutdown()` call
plus exactly once more through the registered process-exit hook when the
exit hooks run; in particular it runs at least once whenever the hooks run,
even with no explicit `shutdown()` call, but it is not limited to once per
lifetime. -/
theorem start_nginx_count_formula (n : Nat) :
    startNginxCount (supervisorLifetimeEvents n true) = n + 1 ∧
    startNginxCount (supervisorLifetimeEvents n false) = n ∧
    1 ≤ startNginxCount (supervisorLifetimeEvents n true) := by
  have ht : startNginxCount (supervisorLifetimeEvents n true) = n + 1 := by
    rw [supervisorLifetimeEvents, if_pos rfl, startNginxCount_append,
      startNginxCount_replicate_shutdown]
    have h1 : startNginxCount AcquisitionController.shutdown = 1 := rfl
    omega
  refine ⟨ht, ?_, by omega⟩
  rw [supervisorLifetimeEvents, if_neg (by simp), startNginxCount_append,
    startNginxCount_replicate_shutdown]
  have h0 : startNginxCount [] = 0 := rfl
  omega

/-- C7 counterexample: the claim enumerates nine command tags, but the
supervisor's command-issuance method `fetch_additional_signals` sends a
message tagged `FETCH_QUADRATURES`, which is none of the nine. -/
theorem fetch_quadratures_outside_nine_tags_cex :
    AcquisitionController.fetch_additional_signals 1 =
      [SupervisorEvent.sent
        { tag := AcquisitionProcessSignals.FETCH_QUADRATURES, payload := [1] }] ∧
    AcquisitionProcessSignals.FETCH_QUADRATURES ∉ claimNineTags :=
  ⟨rfl, by decide⟩

/-- C7 (amended): every message sent by a supervisor command-issuance
method carries one of exactly the ten tags used by the protocol — the nine
of the claim plus `FETCH_QUADRATURES` — and the worker loop dispatches each
non-`SHUTDOWN` tag to the corresponding service operation (`SHUTDOWN`
raises `SystemExit` instead of being dispatched). -/
theorem supervisor_commands_ten_tags_dispatch :
    (∀ t ∈ sentTags AcquisitionController.pause_acquisition, t ∈ allCommandTags) ∧
    (∀ uuid, ∀ t ∈ sentTags (AcquisitionController.continue_acquisition uuid), t ∈ allCommandTags) ∧
    (∀ t ∈ sentTags AcquisitionController.shutdown, t ∈ allCommandTags) ∧
    (∀ v, ∀ t ∈ sentTags (AcquisitionController.set_sweep_speed v), t ∈ allCommandTags) ∧
    (∀ v, ∀ t ∈ sentTags (AcquisitionController.set_lock_status v), t ∈ allCommandTags) ∧
    (∀ v, ∀ t ∈ sentTags (AcquisitionController.fetch_additional_signals v), t ∈ allCommandTags) ∧
    (∀ k v, ∀ t ∈ sentTags (AcquisitionController.set_csr k v), t ∈ allCommandTags) ∧
    (∀ args, ∀ t ∈ sentTags (AcquisitionController.set_iir_csr args), t ∈ allCommandTags) ∧
    (∀ e d, ∀ t ∈ sentTags (AcquisitionController.set_raw_acquisition e d), t ∈ allCommandTags) ∧
    (∀ e, ∀ t ∈ sentTags (AcquisitionController.set_dual_channel e), t ∈ allCommandTags) ∧
    (∀ pl, dispatchSignal { tag := AcquisitionProcessSignals.SHUTDOWN, payload := pl } = none) ∧
    (∀ pl, dispatchSignal { tag := AcquisitionProcessSignals.SET_SWEEP_SPEED, payload := pl } =
      some (ServiceOp.exposed_set_sweep_speed pl)) ∧
    (∀ pl, dispatchSignal { tag := AcquisitionProcessSignals.SET_LOCK_STATUS, payload := pl } =
      some (ServiceOp.exposed_set_lock_status pl)) ∧
    (∀ pl, dispatchSignal { tag := AcquisitionProcessSignals.FETCH_QUADRATURES, payload := pl } =
      some (ServiceOp.exposed_set_fetch_additional_signals pl)) ∧
    (∀ pl, dispatchSignal { tag := AcquisitionProcessSignals.SET_RAW_ACQUISITION, payload := pl } =
      some (ServiceOp.exposed_set_raw_acquisition pl)) ∧
    (∀ pl, dispatchSignal { tag := AcquisitionProcessSignals.SET_DUAL_CHANNEL, payload := pl } =
      some (ServiceOp.exposed_set_dual_channel pl)) ∧
    (∀ pl, dispatchSignal { tag := AcquisitionProcessSignals.SET_CSR, payload := pl } =
      some (ServiceOp.exposed_set_csr pl)) ∧
    (∀ pl, dispatchSignal { tag := AcquisitionProcessSignals.SET_IIR_CSR, payload := pl } =
      some (ServiceOp.exposed_set_iir_csr pl)) ∧
    (∀ pl, dispatchSignal { tag := AcquisitionProcessSignals.PAUSE_ACQUISIITON, payload := pl } =
      some ServiceOp.exposed_pause_acquisition) ∧
    (∀ pl, dispatchSignal { tag := AcquisitionProcessSignals.CONTINUE_ACQUISITION, payload := pl } =
      some (ServiceOp.exposed_continue_acquisition pl)) := by
  refine ⟨?_, ?_, ?_, ?_, ?_, ?_, ?_, ?_, ?_, ?_,
    fun pl => rfl, fun pl => rfl, fun pl => rfl, fun pl => rfl, fun pl => rfl,
    fun pl => rfl, fun pl => rfl, fun pl => rfl, fun pl => rfl, fun pl => rfl⟩
  · intro t ht
    simp only [AcquisitionController.pause_acquisition, sentTags] at ht
    simp at ht; subst ht; decide
  · intro uuid t ht
    simp only [AcquisitionController.continue_acquisition, sentTags] at ht
    simp at ht; subst ht; decide
  · intro t ht
    simp only [AcquisitionController.shutdown, sentTags] at ht
    simp at ht; subst ht; decide
  · intro v t ht
    simp only [AcquisitionController.set_sweep_speed, sentTags] at ht
    simp at ht; subst ht; decide
  · intro v t ht
    simp only [AcquisitionController.set_lock_status, sentTags] at ht
    simp at ht; subst ht; decide
  · intro v t ht
    simp only [AcquisitionController.fetch_additional_signals, sentTags] at ht
    simp at ht; subst ht; decide
  · intro k v t ht
    simp only [AcquisitionController.set_csr, sentTags] at ht
    simp at ht; subst ht; decide
  · intro args t ht
    simp only [AcquisitionController.set_iir_csr, sentTags] at ht
    simp at ht; subst ht; decide
  · intro e d t ht
    simp only [AcquisitionController.set_raw_acquisition, sentTags] at ht
    simp at ht; subst ht; decide
  · intro e t ht
    simp only [AcquisitionController.set_dual_channel, sentTags] at ht
    simp at ht; subst ht; decide

/-- Updating a cached value changes no handle's identity or `use_cache`
flag, so the cache-update events of a later batch are unchanged. -/
lemma cacheEventsOf_setEntry_param (q : List (String × Nat)) :
    ∀ (attrs : List (String × PyObj)) (n : String) (p : RemoteParameter) (w : Nat),
    lookupEntry attrs n = some (PyObj.param p) →
    cacheEventsOf (setEntry attrs n (PyObj.param (p.update_cache w))) q =
      cacheEventsOf attrs q := by
  induction q with
  | nil => intro attrs n p w h; rfl
  | cons pr rest ih =>
    intro attrs n p w h
    obtain ⟨m, v⟩ := pr
    by_cases hnm : n = m
    · subst hnm
      simp [cacheEventsOf, lookupEntry_setEntry, h, RemoteParameter.update_cache]
      exact ih attrs n p w h
    · simp only [cacheEventsOf, lookupEntry_setEntry, if_neg hnm, ih attrs n p w h]

/-- The events produced by the cache-update loop are exactly
`cacheEventsOf` of the pre-loop attribute dictionary. -/
lemma updateCaches_events (q : List (String × Nat)) :
    ∀ (attrs : List (String × PyObj)) r, updateCaches attrs q = Except.ok r →
    r.2 = cacheEventsOf attrs q := by
  induction q with
  | nil =>
    intro attrs r h
    simp only [updateCaches] at h
    cases h
    rfl
  | cons pr rest ih =>
    intro attrs r h
    obtain ⟨n, v⟩ := pr
    cases hl : lookupEntry attrs n with
    | none =>
      simp only [updateCaches, hl] at h
      exact Except.noConfusion h
    | some o =>
      cases o with
      | plain k =>
        simp only [updateCaches, hl] at h
        exact Except.noConfusion h
      | param p =>
        simp only [updateCaches, hl] at h
        by_cases hc : p.use_cache
        · rw [if_pos hc] at h
          cases hu : updateCaches (setEntry attrs n (PyObj.param (p.update_cache v))) rest with
          | error e =>
            simp only [hu] at h
            exact Except.noConfusion h
          | ok r2 =>
            obtain ⟨attrs2, evs⟩ := r2
            simp only [hu] at h
            cases h
            simp only [cacheEventsOf, hl, if_pos hc, List.singleton_append]
            have hevs : evs = cacheEventsOf (setEntry attrs n (PyObj.param (p.update_cache v))) rest :=
              ih _ _ hu
            rw [hevs, cacheEventsOf_setEntry_param rest attrs n p v hl]
        · rw [if_neg hc] at h
          simp only [cacheEventsOf, hl, if_neg hc, List.nil_append]
          exact ih _ _ h

/-- `setEntry` with a handle value preserves `isParamAttr`. -/
lemma isParamAttr_setEntry_param (attrs : List (String × PyObj)) (n m : String)
    (p : RemoteParameter) (h : isParamAttr attrs m = true) :
    isParamAttr (setEntry attrs n (PyObj.param p)) m = true := by
  by_cases hnm : n = m
  · subst hnm
    simp [isParamAttr, lookupEntry_setEntry]
  · simpa [isParamAttr, lookupEntry_setEntry, hnm] using h

/-- The cache-update loop succeeds whenever every batch name is bound to a
handle. -/
lemma updateCaches_ok (q : List (String × Nat)) :
    ∀ attrs, (∀ pr ∈ q, isParamAttr attrs pr.1 = true) →
    ∃ r, updateCaches attrs q = Except.ok r := by
  induction q with
  | nil => intro attrs _; exact ⟨_, rfl⟩
  | cons pr rest ih =>
    intro attrs hn
    obtain ⟨n, v⟩ := pr
    have hn0 : isParamAttr attrs n = true := hn (n, v) (by simp)
    cases hl : lookupEntry attrs n with
    | none => rw [isParamAttr, hl] at hn0; exact absurd hn0 (by simp)
    | some o =>
      cases o with
      | plain k => rw [isParamAttr, hl] at hn0; exact absurd hn0 (by simp)
      | param p =>
        by_cases hc : p.use_cache
        · have hrest : ∀ pr ∈ rest,
              isParamAttr (setEntry attrs n (PyObj.param (p.update_cache v))) pr.1 = true :=
            fun pr hpr => isParamAttr_setEntry_param attrs n pr.1 _
              (hn pr (List.mem_cons_of_mem _ hpr))
          obtain ⟨r2, hr2⟩ := ih _ hrest
          refine ⟨(r2.1, MirrorEvent.cacheUpdated n v :: r2.2), ?_⟩
          simp only [updateCaches, hl, if_pos hc, hr2]
        · have hrest : ∀ pr ∈ rest, isParamAttr attrs pr.1 = true :=
            fun pr hpr => hn pr (List.mem_cons_of_mem _ hpr)
          obtain ⟨r2, hr2⟩ := ih _ hrest
          refine ⟨r2, ?_⟩
          simp only [updateCaches, hl, if_neg hc, hr2]

/-- Names with no occurrence in the batch keep their binding. -/
lemma updateCaches_lastVal_none (q : List (String × Nat)) :
    ∀ attrs r, updateCaches attrs q = Except.ok r →
    ∀ n, lastVal q n = none → lookupEntry r.1 n = lookupEntry attrs n := by
  induction q with
  | nil =>
    intro attrs r h n _
    simp only [updateCaches] at h
    cases h
    rfl
  | cons pr rest ih =>
    intro attrs r h n hn
    obtain ⟨m, v⟩ := pr
    have hrest : lastVal rest n = none := by
      cases hr : lastVal rest n with
      | none => rfl
      | some w => rw [lastVal, hr] at hn; exact absurd hn (by simp)
    have hmn : ¬m = n := by
      intro hmn
      rw [lastVal, hrest, if_pos hmn] at hn
      exact Option.noConfusion hn
    cases hl : lookupEntry attrs m with
    | none =>
      simp only [updateCaches, hl] at h
      exact Except.noConfusion h
    | some o =>
      cases o with
      | plain k =>
        simp only [updateCaches, hl] at h
        exact Except.noConfusion h
      | param p =>
        simp only [updateCaches, hl] at h
        by_cases hc : p.use_cache
        · rw [if_pos hc] at h
          cases hu : updateCaches (setEntry attrs m (PyObj.param (p.update_cache v))) rest with
          | error e =>
            simp only [hu] at h
            exact Except.noConfusion h
          | ok r2 =>
            obtain ⟨attrs2, evs⟩ := r2
            simp only [hu] at h
            cases h
            have := ih _ _ hu n hrest
            rw [this, lookupEntry_setEntry, if_neg hmn]
        · rw [if_neg hc] at h
          exact ih _ _ h n hrest

/-- Splitting a successful cache-update loop at its first entry:
exposes the handle bound at the head name, the dictionary the loop
recursed on, and the recursive result (whose dictionary equals the final
one). -/
lemma updateCaches_cons_split (attrs : List (String × PyObj)) (m : String) (w : Nat)
    (rest : List (String × Nat)) (r : List (String × PyObj) × List MirrorEvent)
    (h : updateCaches attrs ((m, w) :: rest) = Except.ok r) :
    ∃ pm attrs1 evs1, lookupEntry attrs m = some (PyObj.param pm) ∧
      attrs1 = (if pm.use_cache then setEntry attrs m (PyObj.param (pm.update_cache w))
        else attrs) ∧
      updateCaches attrs1 rest = Except.ok (r.1, evs1) := by
  cases hl : lookupEntry attrs m with
  | none =>
    simp only [updateCaches, hl] at h
    exact Except.noConfusion h
  | some o =>
    cases o with
    | plain k =>
      simp only [updateCaches, hl] at h
      exact Except.noConfusion h
    | param pm =>
      simp only [updateCaches, hl] at h
      by_cases hmc : pm.use_cache
      · rw [if_pos hmc] at h
        cases hu : updateCaches (setEntry attrs m (PyObj.param (pm.update_cache w))) rest with
        | error e =>
          simp only [hu] at h
          exact Except.noConfusion h
        | ok r2 =>
          obtain ⟨attrs2, evs⟩ := r2
          simp only [hu] at h
          cases h
          exact ⟨pm, _, evs, rfl, by rw [if_pos hmc], hu⟩
      · rw [if_neg hmc] at h
        exact ⟨pm, attrs, r.2, rfl, by rw [if_neg hmc], by rw [h]⟩

/-- After a successful cache-update loop, a name whose last batch value is
`v` and whose handle uses the cache is bound to that handle with its cached
value replaced by `v`. -/
lemma updateCaches_lastVal_some (q : List (String × Nat)) :
    ∀ attrs r, updateCaches attrs q = Except.ok r →
    ∀ n v p, lastVal q n = some v → lookupEntry attrs n = some (PyObj.param p) →
    p.use_cache = true →
    lookupEntry r.1 n = some (PyObj.param { p with cachedValue := some v }) := by
  induction q with
  | nil =>
    intro attrs r h n v p hv hp hc
    exact absurd hv (by simp [lastVal])
  | cons pr rest ih =>
    intro attrs r h n v p hv hp hc
    obtain ⟨m, w⟩ := pr
    obtain ⟨pm, attrs1, evs1, hl, hattrs1, hu⟩ := updateCaches_cons_split attrs m w rest r h
    cases hrv : lastVal rest n with
    | some v2 =>
      have hv2 : v2 = v := by
        rw [lastVal, hrv] at hv
        exact Option.some.inj hv
      subst hv2
      by_cases hmn : m = n
      · have hpm : pm = p := by
          rw [hmn, hp] at hl
          simpa using hl.symm
        subst hpm
        have h1 : lookupEntry attrs1 n = some (PyObj.param (pm.update_cache w)) := by
          rw [hattrs1, if_pos hc, lookupEntry_setEntry, if_pos hmn]
        have h2 := ih attrs1 (r.1, evs1) hu n v2 (pm.update_cache w) hrv h1 hc
        simpa [RemoteParameter.update_cache] using h2
      · have h1 : lookupEntry attrs1 n = some (PyObj.param p) := by
          rw [hattrs1]
          by_cases hb : pm.use_cache
          · rw [if_pos hb, lookupEntry_setEntry, if_neg hmn]
            exact hp
          · rw [if_neg hb]
            exact hp
        exact ih attrs1 (r.1, evs1) hu n v2 p hrv h1 hc
    | none =>
      have hmn : m = n := by
        rw [lastVal, hrv] at hv
        by_cases hmn : m = n
        · exact hmn
        · rw [if_neg hmn] at hv
          exact Option.noConfusion hv
      have hwv : w = v := by
        rw [lastVal, hrv, if_pos hmn] at hv
        exact Option.some.inj hv
      have hpm : pm = p := by
        rw [hmn, hp] at hl
        simpa using hl.symm
      subst hpm
      subst hwv
      have h2 : lookupEntry r.1 n = lookupEntry attrs1 n :=
        updateCaches_lastVal_none rest attrs1 (r.1, evs1) hu n hrv
      rw [h2, hattrs1, if_pos hc, lookupEntry_setEntry, if_pos hmn]
      simp [RemoteParameter.update_cache]

/-- C1: for a poll that consumes a delivered batch `q` (every name of which
is a frozen handle), the call succeeds and its event trace is exactly: the
consumption and immediate re-issue of the fetch, then the cache updates of
all cache-backed handles named in `q` in delivery order, and only then the
callback invocations, in the batch's delivery order; consequently, after the
poll, reading any cache-backed name that appeared in the batch returns the
last value delivered for that name in the batch — regardless of what the
server would answer a fresh get. -/
theorem poll_batch_cache_then_callbacks (s : MirrorState) (q : List (String × Nat))
    (hf : s.fetchOutstanding = true) (hp : s.pending = [])
    (hnames : ∀ pr ∈ q, isParamAttr s.attrs pr.1 = true) :
    ∃ s2,
      check_for_changed_parameters s { fetchResult := some q, regReady := false } =
        Except.ok (s2, MirrorEvent.fetchConsumed :: MirrorEvent.fetchIssued ::
          (cacheEventsOf s.attrs q ++ callbackEventsOf s.callbacks q)) ∧
      ∀ n v p, lastVal q n = some v → lookupEntry s.attrs n = some (PyObj.param p) →
        p.use_cache = true → ∀ srv, readParam s2 srv n = some v := by
  obtain ⟨r, hr⟩ := updateCaches_ok q s.attrs hnames
  obtain ⟨attrs2, cevs⟩ := r
  have hevs : cevs = cacheEventsOf s.attrs q :=
    updateCaches_events q s.attrs (attrs2, cevs) hr
  refine ⟨{ s with attrs := attrs2 }, ?_, ?_⟩
  · simp [check_for_changed_parameters, pollStep1, pollStep2, pollStep3, pollStep4,
      hf, hp, hr, hevs]
  · intro n v p hv hp2 hc srv
    have hlv := updateCaches_lastVal_some q s.attrs (attrs2, cevs) hr n v p hv hp2 hc
    have hattrs : ({ s with attrs := attrs2 } : MirrorState).attrs = attrs2 := rfl
    rw [readParam, hattrs, hlv]
    simp [RemoteParameter.value]

/-- Witness for C1: the constructed example mirror consuming the batch
`[("speed", 5), ("speed", 7)]`. -/
theorem poll_batch_cache_then_callbacks_witness :
    ∃ s2,
      check_for_changed_parameters exampleMirror
          { fetchResult := some [("speed", 5), ("speed", 7)], regReady := false } =
        Except.ok (s2, MirrorEvent.fetchConsumed :: MirrorEvent.fetchIssued ::
          (cacheEventsOf exampleMirror.attrs [("speed", 5), ("speed", 7)] ++
            callbackEventsOf exampleMirror.callbacks [("speed", 5), ("speed", 7)])) ∧
      ∀ n v p, lastVal [("speed", 5), ("speed", 7)] n = some v →
        lookupEntry exampleMirror.attrs n = some (PyObj.param p) →
        p.use_cache = true → ∀ srv, readParam s2 srv n = some v :=
  poll_batch_cache_then_callbacks exampleMirror [("speed", 5), ("speed", 7)]
    (by decide) (by decide) (by decide)

lemma afterFetchEvents_append (l1 l2 : List MirrorEvent) :
    ∀ b, afterFetchEvents b (l1 ++ l2) = afterFetchEvents (afterFetchEvents b l1) l2 := by
  induction l1 with
  | nil => intro b; rfl
  | cons e rest ih => intro b; cases e <;> simp [afterFetchEvents, ih]

lemma fetchTokensOK_append (l1 l2 : List MirrorEvent) :
    ∀ b, fetchTokensOK b (l1 ++ l2) =
      (fetchTokensOK b l1 && fetchTokensOK (afterFetchEvents b l1) l2) := by
  induction l1 with
  | nil => intro b; simp [fetchTokensOK, afterFetchEvents]
  | cons e rest ih =>
    intro b
    cases e <;> simp [fetchTokensOK, afterFetchEvents, ih, Bool.and_assoc]

lemma afterRegEvents_append (l1 l2 : List MirrorEvent) :
    ∀ b, afterRegEvents b (l1 ++ l2) = afterRegEvents (afterRegEvents b l1) l2 := by
  induction l1 with
  | nil => intro b; rfl
  | cons e rest ih => intro b; cases e <;> simp [afterRegEvents, ih]

lemma regTokensOK_append (l1 l2 : List MirrorEvent) :
    ∀ b, regTokensOK b (l1 ++ l2) =
      (regTokensOK b l1 && regTokensOK (afterRegEvents b l1) l2) := by
  induction l1 with
  | nil => intro b; simp [regTokensOK, afterRegEvents]
  | cons e rest ih =>
    intro b
    cases e <;> simp [regTokensOK, afterRegEvents, ih, Bool.and_assoc]

/-- Neutral events satisfy both token disciplines and change neither
in-flight flag. -/
lemma tokens_neutral (l : List MirrorEvent) :
    (∀ e ∈ l, mirrorNeutralEvent e = true) → ∀ b,
    fetchTokensOK b l = true ∧ afterFetchEvents b l = b ∧
    regTokensOK b l = true ∧ afterRegEvents b l = b := by
  induction l with
  | nil => intro _ b; exact ⟨rfl, rfl, rfl, rfl⟩
  | cons e rest ih =>
    intro h b
    have he : mirrorNeutralEvent e = true := h e (by simp)
    have hrest : ∀ e ∈ rest, mirrorNeutralEvent e = true :=
      fun e2 h2 => h e2 (by simp [h2])
    cases e with
    | fetchIssued => simp [mirrorNeutralEvent] at he
    | fetchConsumed => simp [mirrorNeutralEvent] at he
    | regIssued ns => simp [mirrorNeutralEvent] at he
    | regConsumed => simp [mirrorNeutralEvent] at he
    | cacheUpdated n v =>
      simpa [fetchTokensOK, afterFetchEvents, regTokensOK, afterRegEvents] using ih hrest b
    | callbackInvoked f n v =>
      simpa [fetchTokensOK, afterFetchEvents, regTokensOK, afterRegEvents] using ih hrest b
    | setParamSent n v =>
      simpa [fetchTokensOK, afterFetchEvents, regTokensOK, afterRegEvents] using ih hrest b

lemma cacheEventsOf_neutral (q : List (String × Nat)) :
    ∀ attrs, ∀ e ∈ cacheEventsOf attrs q, mirrorNeutralEvent e = true := by
  induction q with
  | nil => intro attrs e he; simp [cacheEventsOf] at he
  | cons pr rest ih =>
    intro attrs e he
    obtain ⟨n, v⟩ := pr
    rw [cacheEventsOf] at he
    rcases List.mem_append.mp he with h1 | h2
    · cases hl : lookupEntry attrs n with
      | none => simp only [hl] at h1; simp at h1
      | some o =>
        cases o with
        | plain k => simp only [hl] at h1; simp at h1
        | param p =>
          simp only [hl] at h1
          by_cases hc : p.use_cache
          · rw [if_pos hc] at h1
            simp at h1
            subst h1
            rfl
          · rw [if_neg hc] at h1
            simp at h1
    · exact ih attrs e h2

lemma callbackEventsOf_neutral (q : List (String × Nat)) :
    ∀ cbs, ∀ e ∈ callbackEventsOf cbs q, mirrorNeutralEvent e = true := by
  induction q with
  | nil => intro cbs e he; simp [callbackEventsOf] at he
  | cons pr rest ih =>
    intro cbs e he
    obtain ⟨n, v⟩ := pr
    rw [callbackEventsOf] at he
    rcases List.mem_append.mp he with h1 | h2
    · cases hl : lookupEntry cbs n with
      | none => simp only [hl] at h1; simp at h1
      | some fns =>
        simp only [hl] at h1
        obtain ⟨f, _, hf⟩ := List.mem_map.mp h1
        subst hf
        rfl
    · exact ih cbs e h2

lemma pollStep1_spec (s : MirrorState) :
    fetchTokensOK s.fetchOutstanding (pollStep1 s).2 = true ∧
    afterFetchEvents s.fetchOutstanding (pollStep1 s).2 = (pollStep1 s).1.fetchOutstanding ∧
    regTokensOK s.regOutstanding (pollStep1 s).2 = true ∧
    afterRegEvents s.regOutstanding (pollStep1 s).2 = s.regOutstanding ∧
    (pollStep1 s).1.fetchOutstanding = true ∧
    (pollStep1 s).1.regOutstanding = s.regOutstanding ∧
    (pollStep1 s).1.pending = s.pending := by
  cases hfo : s.fetchOutstanding <;>
    simp [pollStep1, hfo, fetchTokensOK, afterFetchEvents, regTokensOK, afterRegEvents]

lemma pollStep2_spec (s : MirrorState) :
    fetchTokensOK s.fetchOutstanding (pollStep2 s).2 = true ∧
    afterFetchEvents s.fetchOutstanding (pollStep2 s).2 = s.fetchOutstanding ∧
    regTokensOK s.regOutstanding (pollStep2 s).2 = true ∧
    afterRegEvents s.regOutstanding (pollStep2 s).2 = (pollStep2 s).1.regOutstanding ∧
    (pollStep2 s).1.fetchOutstanding = s.fetchOutstanding := by
  by_cases hc : (!s.regOutstanding && !s.pending.isEmpty) = true
  · have hc2 := hc
    simp only [Bool.and_eq_true] at hc2
    obtain ⟨h1, h2⟩ := hc2
    have hro : s.regOutstanding = false := by simpa using h1
    have hpe : s.pending.isEmpty = false := by simpa using h2
    simp [pollStep2, hc, hro, hpe, fetchTokensOK, afterFetchEvents, regTokensOK,
      afterRegEvents]
  · simp [pollStep2, hc, fetchTokensOK, afterFetchEvents, regTokensOK, afterRegEvents]

lemma pollStep3_spec (s : MirrorState) (fr : Option (List (String × Nat)))
    (s3 : MirrorState) (evs3 : List MirrorEvent)
    (hsf : s.fetchOutstanding = true)
    (h : pollStep3 s fr = Except.ok (s3, evs3)) :
    fetchTokensOK s.fetchOutstanding evs3 = true ∧
    afterFetchEvents s.fetchOutstanding evs3 = s3.fetchOutstanding ∧
    regTokensOK s.regOutstanding evs3 = true ∧
    afterRegEvents s.regOutstanding evs3 = s3.regOutstanding ∧
    s3.fetchOutstanding = s.fetchOutstanding ∧
    s3.regOutstanding = s.regOutstanding := by
  cases fr with
  | none =>
    simp only [pollStep3] at h
    cases h
    simp [fetchTokensOK, afterFetchEvents, regTokensOK, afterRegEvents]
  | some q =>
    simp only [pollStep3] at h
    cases hu : updateCaches s.attrs q with
    | error e =>
      simp only [hu] at h
      exact Except.noConfusion h
    | ok r =>
      obtain ⟨attrs2, cevs⟩ := r
      simp only [hu] at h
      cases h
      have hneu : ∀ e ∈ cevs ++ callbackEventsOf s.callbacks q,
          mirrorNeutralEvent e = true := by
        intro e he
        rcases List.mem_append.mp he with h1 | h2
        · have hevs : cevs = cacheEventsOf s.attrs q :=
            updateCaches_events q s.attrs (attrs2, cevs) hu
          rw [hevs] at h1
          exact cacheEventsOf_neutral q s.attrs e h1
        · exact callbackEventsOf_neutral q s.callbacks e h2
      obtain ⟨n1, n2, n3, n4⟩ := tokens_neutral _ hneu true
      obtain ⟨m1, m2, m3, m4⟩ := tokens_neutral _ hneu s.regOutstanding
      rw [hsf]
      refine ⟨?_, ?_, ?_, ?_, rfl, rfl⟩
      · simp [fetchTokensOK, n1]
      · simp [afterFetchEvents, n2, hsf]
      · simp [regTokensOK, m3]
      · simp [afterRegEvents, m4]

lemma pollStep4_spec (s : MirrorState) (rr : Bool) :
    fetchTokensOK s.fetchOutstanding (pollStep4 s rr).2 = true ∧
    afterFetchEvents s.fetchOutstanding (pollStep4 s rr).2 = s.fetchOutstanding ∧
    regTokensOK s.regOutstanding (pollStep4 s rr).2 = true ∧
    afterRegEvents s.regOutstanding (pollStep4 s rr).2 = (pollStep4 s rr).1.regOutstanding ∧
    (pollStep4 s rr).1.fetchOutstanding = s.fetchOutstanding := by
  by_cases hc : (s.regOutstanding && rr) = true
  · have hc2 := hc
    simp only [Bool.and_eq_true] at hc2
    obtain ⟨hro, hrr⟩ := hc2
    simp [pollStep4, hro, hrr, fetchTokensOK, afterFetchEvents, regTokensOK, afterRegEvents]
  · simp [pollStep4, hc, fetchTokensOK, afterFetchEvents, regTokensOK, afterRegEvents]

/-- One `check_for_changed_parameters` call respects both request-token
disciplines, starting from the in-flight flags recorded in the entry state,
and leaves the flags recorded in the result state. -/
lemma check_tokens (s : MirrorState) (inp : PollInput) (s1 : MirrorState)
    (evs : List MirrorEvent)
    (h : check_for_changed_parameters s inp = Except.ok (s1, evs)) :
    fetchTokensOK s.fetchOutstanding evs = true ∧
    afterFetchEvents s.fetchOutstanding evs = s1.fetchOutstanding ∧
    regTokensOK s.regOutstanding evs = true ∧
    afterRegEvents s.regOutstanding evs = s1.regOutstanding := by
  cases h3 : pollStep3 (pollStep2 (pollStep1 s).1).1 inp.fetchResult with
  | error e =>
    simp only [check_for_changed_parameters, h3] at h
    exact Except.noConfusion h
  | ok r3 =>
    obtain ⟨s3, evs3⟩ := r3
    simp only [check_for_changed_parameters, h3] at h
    cases h
    obtain ⟨a1, a2, a3, a4, a5, a6, a7⟩ := pollStep1_spec s
    obtain ⟨b1, b2, b3, b4, b5⟩ := pollStep2_spec (pollStep1 s).1
    rw [a5] at b1 b2 b5
    have c0 := pollStep3_spec (pollStep2 (pollStep1 s).1).1 inp.fetchResult s3 evs3 b5 h3
    obtain ⟨c1, c2, c3, c4, c5, c6⟩ := c0
    rw [b5] at c1 c2 c5
    obtain ⟨d1, d2, d3, d4, d5⟩ := pollStep4_spec s3 inp.regReady
    rw [c5] at d1 d2 d5
    rw [a6] at b3 b4
    refine ⟨?_, ?_, ?_, ?_⟩
    · simp only [fetchTokensOK_append, afterFetchEvents_append, a1, a2, a5, b1, b2, c1,
        c2, c5, d1, Bool.true_and]
    · simp only [afterFetchEvents_append, a2, a5, b2, c2, c5, d2, d5]
    · simp only [regTokensOK_append, afterRegEvents_append, a3, a4, b3, b4, c3, c4, d3,
        Bool.true_and]
    · simp only [afterRegEvents_append, a4, b4, c4, d4]

/-- A sequence of polls respects both token disciplines. -/
lemma runPolls_tokens (inputs : List PollInput) :
    ∀ s s1 evs, runPolls s inputs = Except.ok (s1, evs) →
    fetchTokensOK s.fetchOutstanding evs = true ∧
    afterFetchEvents s.fetchOutstanding evs = s1.fetchOutstanding ∧
    regTokensOK s.regOutstanding evs = true ∧
    afterRegEvents s.regOutstanding evs = s1.regOutstanding := by
  induction inputs with
  | nil =>
    intro s s1 evs h
    simp only [runPolls] at h
    cases h
    exact ⟨rfl, rfl, rfl, rfl⟩
  | cons inp rest ih =>
    intro s s1 evs h
    cases hc : check_for_changed_parameters s inp with
    | error e =>
      simp only [runPolls, hc] at h
      exact Except.noConfusion h
    | ok r1 =>
      obtain ⟨sA, evsA⟩ := r1
      cases hr : runPolls sA rest with
      | error e =>
        simp only [runPolls, hc, hr] at h
        exact Except.noConfusion h
      | ok r2 =>
        obtain ⟨sB, evsB⟩ := r2
        simp only [runPolls, hc, hr] at h
        cases h
        obtain ⟨p1, p2, p3, p4⟩ := check_tokens s inp sA evsA hc
        obtain ⟨q1, q2, q3, q4⟩ := ih sA s1 evsB hr
        refine ⟨?_, ?_, ?_, ?_⟩
        · simp only [fetchTokensOK_append, p1, p2, q1, Bool.true_and]
        · simp only [afterFetchEvents_append, p2, q2]
        · simp only [regTokensOK_append, p3, p4, q3, Bool.true_and]
        · simp only [afterRegEvents_append, p4, q4]

/-- C2: for every constructed mirror and every sequence of
`check_for_changed_parameters` calls, the whole event trace (including the
construction's initial poll) satisfies the request-token disciplines
starting from zero outstanding requests: a changed-parameters fetch is
issued only when no fetch is in flight (i.e. the marker is `None` or the
previous fetch's result has just been consumed), and a listener
registration is issued only when no registration is in flight and carries a
snapshot of a non-empty pending list — hence at most one request of either
kind is outstanding at every point of every trace. -/
theorem poll_sequence_backpressure (inv : List ParameterInfo) (uuid : Nat)
    (use_cache : Bool) (inp0 : PollInput) (inputs : List PollInput)
    (s0 s1 : MirrorState) (evs0 evs1 : List MirrorEvent)
    (hc : constructMirror inv uuid use_cache inp0 = Except.ok (s0, evs0))
    (hr : runPolls s0 inputs = Except.ok (s1, evs1)) :
    fetchTokensOK false (evs0 ++ evs1) = true ∧
    regTokensOK false (evs0 ++ evs1) = true := by
  rw [constructMirror] at hc
  obtain ⟨p1, p2, p3, p4⟩ := check_tokens _ inp0 s0 evs0 hc
  obtain ⟨q1, q2, q3, q4⟩ := runPolls_tokens inputs s0 s1 evs1 hr
  constructor
  · rw [fetchTokensOK_append]
    simp only [p1, p2, q1] at *
    simp [p1, p2, q1]
  · rw [regTokensOK_append]
    simp [p3, p4, q3]

/-- Witness for C2: the example mirror run through `exInputs`. -/
theorem poll_sequence_backpressure_witness :
    fetchTokensOK false (exConstructResult.2 ++ exRunResult.2) = true ∧
    regTokensOK false (exConstructResult.2 ++ exRunResult.2) = true :=
  poll_sequence_backpressure exampleInventory 1 true
    { fetchResult := none, regReady := false } exInputs
    exConstructResult.1 exRunResult.1 exConstructResult.2 exRunResult.2 rfl rfl

lemma dispatchSignal_eq_none_iff (m : PipeMessage) :
    dispatchSignal m = none ↔ m.tag = AcquisitionProcessSignals.SHUTDOWN := by
  obtain ⟨t, pl⟩ := m
  cases t <;> simp [dispatchSignal]

/-- Draining a queue with no shutdown message never terminates the loop. -/
lemma drain_no_shutdown (cmds : List PipeMessage)
    (h : ∀ m ∈ cmds, m.tag ≠ AcquisitionProcessSignals.SHUTDOWN) :
    (drainCommands cmds).2 = false := by
  induction cmds with
  | nil => rfl
  | cons m rest ih =>
    have hm : m.tag ≠ AcquisitionProcessSignals.SHUTDOWN := h m (by simp)
    cases hd : dispatchSignal m with
    | none => exact absurd ((dispatchSignal_eq_none_iff m).mp hd) hm
    | some op =>
      have hrest := ih fun m2 h2 => h m2 (by simp [h2])
      simp [drainCommands, hd, hrest]

/-- Draining a queue whose first shutdown message follows `pre` dispatches
exactly the messages of `pre` and terminates, leaving everything after the
shutdown message unprocessed. -/
lemma drain_shutdown_split (pre : List PipeMessage) :
    ∀ post pay, (∀ m ∈ pre, m.tag ≠ AcquisitionProcessSignals.SHUTDOWN) →
    drainCommands (pre ++ { tag := AcquisitionProcessSignals.SHUTDOWN, payload := pay } :: post) =
      ((drainCommands pre).1, true) := by
  induction pre with
  | nil => intro post pay _; rfl
  | cons m rest ih =>
    intro post pay h
    have hm : m.tag ≠ AcquisitionProcessSignals.SHUTDOWN := h m (by simp)
    cases hd : dispatchSignal m with
    | none => exact absurd ((dispatchSignal_eq_none_iff m).mp hd) hm
    | some op =>
      have hrest := ih post pay fun m2 h2 => h m2 (by simp [h2])
      simp [drainCommands, hd, hrest]

/-- A tick whose commands contain no shutdown does not terminate the loop. -/
lemma workerTick_no_shutdown (lastHash : Option Nat) (t : TickInput)
    (h : ∀ m ∈ t.commands, m.tag ≠ AcquisitionProcessSignals.SHUTDOWN) :
    (workerTick lastHash t).terminated = false := by
  have hd := drain_no_shutdown t.commands h
  rw [workerTick]
  rw [hd]
  by_cases hn : (exposed_return_data lastHash t.data).new_data_returned = true <;>
    simp [hn]

/-- Running the loop over shutdown-free ticks, then more ticks, runs the
first segment completely and continues from its final hash. -/
lemma runWorker_append_no_shutdown (ticks1 : List TickInput) :
    ∀ lastHash ticks2,
    (∀ t ∈ ticks1, ∀ m ∈ t.commands, m.tag ≠ AcquisitionProcessSignals.SHUTDOWN) →
    runWorker lastHash (ticks1 ++ ticks2) =
      { events := (runWorker lastHash ticks1).events ++
          (runWorker (runWorker lastHash ticks1).lastHash ticks2).events,
        lastHash := (runWorker (runWorker lastHash ticks1).lastHash ticks2).lastHash,
        terminated := (runWorker (runWorker lastHash ticks1).lastHash ticks2).terminated } := by
  induction ticks1 with
  | nil => intro lastHash ticks2 _; rfl
  | cons t rest ih =>
    intro lastHash ticks2 h
    have ht : (workerTick lastHash t).terminated = false :=
      workerTick_no_shutdown lastHash t (h t (by simp))
    have hrest := ih (workerTick lastHash t).lastHash ticks2
      fun t2 h2 => h t2 (by simp [h2])
    simp only [List.cons_append, runWorker, ht, Bool.false_eq_true, if_false, hrest]
    simp [hrest, List.append_assoc]

/-- C5: when a shutdown command is dispatched, the worker loop terminates
unconditionally and immediately.  If the first shutdown message of the run
arrives in some tick's queue after the shutdown-free messages `pre`, then
the whole run's event trace is exactly the trace of the earlier ticks
followed by the dispatches of `pre`: no command queued after the shutdown
message (neither `post` in the same drain nor any later tick) is
dispatched, and no data pull or frame push occurs at or after the shutdown
tick (`last_hash` is left at its value from the earlier ticks). -/
theorem worker_shutdown_halts_loop (lastHash : Option Nat) (ticks1 : List TickInput)
    (pre post : List PipeMessage) (pay : List Nat) (d : DataItem)
    (ticks2 : List TickInput)
    (h1 : ∀ t ∈ ticks1, ∀ m ∈ t.commands, m.tag ≠ AcquisitionProcessSignals.SHUTDOWN)
    (h2 : ∀ m ∈ pre, m.tag ≠ AcquisitionProcessSignals.SHUTDOWN) :
    runWorker lastHash (ticks1 ++
        { commands := pre ++
            { tag := AcquisitionProcessSignals.SHUTDOWN, payload := pay } :: post,
          data := d } :: ticks2) =
      { events := (runWorker lastHash ticks1).events ++ (drainCommands pre).1,
        lastHash := (runWorker lastHash ticks1).lastHash,
        terminated := true } := by
  have hdrain := drain_shutdown_split pre post pay h2
  have htick : workerTick (runWorker lastHash ticks1).lastHash
      { commands := pre ++
          { tag := AcquisitionProcessSignals.SHUTDOWN, payload := pay } :: post,
        data := d } =
      { events := (drainCommands pre).1,
        lastHash := (runWorker lastHash ticks1).lastHash,
        terminated := true } := by
    simp [workerTick, hdrain]
  have hrun : runWorker (runWorker lastHash ticks1).lastHash
      ({ commands := pre ++
           { tag := AcquisitionProcessSignals.SHUTDOWN, payload := pay } :: post,
         data := d } :: ticks2) =
      { events := (drainCommands pre).1,
        lastHash := (runWorker lastHash ticks1).lastHash,
        terminated := true } := by
    simp [runWorker, htick]
  rw [runWorker_append_no_shutdown ticks1 lastHash _ h1, hrun]

/-- Witness for C5: a concrete three-tick script whose middle tick queues
`[set_lock_status, SHUTDOWN, set_sweep_speed]`. -/
theorem worker_shutdown_halts_loop_witness :
    runWorker none
        ([{ commands := [{ tag := AcquisitionProcessSignals.SET_SWEEP_SPEED, payload := [4] }],
            data := { hash := 1, is_raw := false, payload := 11, uuid := 0 } }] ++
          { commands := [{ tag := AcquisitionProcessSignals.SET_LOCK_STATUS, payload := [1] }] ++
              { tag := AcquisitionProcessSignals.SHUTDOWN, payload := [] } ::
                [{ tag := AcquisitionProcessSignals.SET_SWEEP_SPEED, payload := [9] }],
            data := { hash := 2, is_raw := false, payload := 12, uuid := 1 } } ::
            [{ commands := [], data := { hash := 3, is_raw := true, payload := 13, uuid := 2 } }]) =
      { events := (runWorker none
          [{ commands := [{ tag := AcquisitionProcessSignals.SET_SWEEP_SPEED, payload := [4] }],
             data := { hash := 1, is_raw := false, payload := 11, uuid := 0 } }]).events ++
          (drainCommands [{ tag := AcquisitionProcessSignals.SET_LOCK_STATUS, payload := [1] }]).1,
        lastHash := (runWorker none
          [{ commands := [{ tag := AcquisitionProcessSignals.SET_SWEEP_SPEED, payload := [4] }],
             data := { hash := 1, is_raw := false, payload := 11, uuid := 0 } }]).lastHash,
        terminated := true } :=
  worker_shutdown_halts_loop none
    [{ commands := [{ tag := AcquisitionProcessSignals.SET_SWEEP_SPEED, payload := [4] }],
       data := { hash := 1, is_raw := false, payload := 11, uuid := 0 } }]
    [{ tag := AcquisitionProcessSignals.SET_LOCK_STATUS, payload := [1] }]
    [{ tag := AcquisitionProcessSignals.SET_SWEEP_SPEED, payload := [9] }] []
    { hash := 2, is_raw := false, payload := 12, uuid := 1 }
    [{ commands := [], data := { hash := 3, is_raw := true, payload := 13, uuid := 2 } }]
    (by decide) (by decide)

lemma pushedHashes_append (l1 l2 : List WorkerEvent) :
    pushedHashes (l1 ++ l2) = pushedHashes l1 ++ pushedHashes l2 := by
  induction l1 with
  | nil => rfl
  | cons e rest ih => cases e <;> simp [pushedHashes, ih]

lemma pushedHashes_drain (cmds : List PipeMessage) :
    pushedHashes (drainCommands cmds).1 = [] := by
  induction cmds with
  | nil => rfl
  | cons m rest ih =>
    cases hd : dispatchSignal m with
    | none => simp [drainCommands, hd, pushedHashes]
    | some op => simp [drainCommands, hd, pushedHashes, ih]

lemma lastDelivered_append (h1 h2 : List Nat) :
    ∀ init, lastDelivered init (h1 ++ h2) = lastDelivered (lastDelivered init h1) h2 := by
  induction h1 with
  | nil => intro init; rfl
  | cons x rest ih => intro init; simp [lastDelivered, ih]

lemma noAdjacentDup_append (h1 h2 : List Nat) :
    ∀ init, noAdjacentDup init (h1 ++ h2) =
      (noAdjacentDup init h1 && noAdjacentDup (lastDelivered init h1) h2) := by
  induction h1 with
  | nil => intro init; simp [noAdjacentDup, lastDelivered]
  | cons x rest ih => intro init; simp [noAdjacentDup, lastDelivered, ih, Bool.and_assoc]

/-- Per-tick frame accounting: the pushed hashes of one tick, and the
resulting `last_hash`. -/
lemma workerTick_pushes (l : Option Nat) (t : TickInput) :
    pushedHashes (workerTick l t).events =
      (if (!(drainCommands t.commands).2 &&
          (exposed_return_data l t.data).new_data_returned) = true
        then [t.data.hash] else []) ∧
    (workerTick l t).lastHash =
      (if (!(drainCommands t.commands).2 &&
          (exposed_return_data l t.data).new_data_returned) = true
        then some t.data.hash else l) := by
  by_cases hd : (drainCommands t.commands).2 = true
  · simp [workerTick, hd, pushedHashes_drain]
  · have hd2 : (drainCommands t.commands).2 = false := by
      cases hb : (drainCommands t.commands).2
      · rfl
      · exact absurd hb hd
    by_cases hn : (exposed_return_data l t.data).new_data_returned = true
    · have hne : ¬ some t.data.hash = l := by
        rw [exposed_return_data] at hn
        simpa using hn
      simp [workerTick, hd2, hn, hne, pushedHashes_append, pushedHashes_drain, pushedHashes,
        exposed_return_data]
    · have hn2 : (exposed_return_data l t.data).new_data_returned = false := by
        cases hb : (exposed_return_data l t.data).new_data_returned
        · rfl
        · exact absurd hb hn
      have heq : some t.data.hash = l := by
        rw [exposed_return_data] at hn2
        simpa using hn2
      simp [workerTick, hd2, hn2, heq, pushedHashes_append, pushedHashes_drain, pushedHashes,
        exposed_return_data]

/-- C6: (i) in every loop iteration a frame is pushed to the supervisor if
and only if the iteration is not terminated by a shutdown and the data pull
`exposed_return_data(last_hash)` reports new data, and `last_hash` is set
to the reported hash exactly in that case (otherwise it is unchanged);
(ii) over any run, the final `last_hash` equals the hash of the last
delivered frame, or the initial value (`None` at loop start) when no frame
was delivered; (iii) no frame whose hash equals the previously delivered
hash (or the initial value) is ever pushed. -/
theorem worker_push_dedup_invariant (lastHash : Option Nat) (ticks : List TickInput) :
    (∀ (l : Option Nat) (t : TickInput),
      hasPushEvent (workerTick l t).events =
        (!(drainCommands t.commands).2 &&
          (exposed_return_data l t.data).new_data_returned) ∧
      (workerTick l t).lastHash =
        (if (!(drainCommands t.commands).2 &&
            (exposed_return_data l t.data).new_data_returned) = true
          then some t.data.hash else l)) ∧
    (runWorker lastHash ticks).lastHash =
      lastDelivered lastHash (pushedHashes (runWorker lastHash ticks).events) ∧
    noAdjacentDup lastHash (pushedHashes (runWorker lastHash ticks).events) = true := by
  have hper : ∀ (l : Option Nat) (t : TickInput),
      hasPushEvent (workerTick l t).events =
        (!(drainCommands t.commands).2 &&
          (exposed_return_data l t.data).new_data_returned) ∧
      (workerTick l t).lastHash =
        (if (!(drainCommands t.commands).2 &&
            (exposed_return_data l t.data).new_data_returned) = true
          then some t.data.hash else l) := by
    intro l t
    obtain ⟨hp, hl⟩ := workerTick_pushes l t
    refine ⟨?_, hl⟩
    rw [hasPushEvent, hp]
    by_cases hb : (!(drainCommands t.commands).2 &&
        (exposed_return_data l t.data).new_data_returned) = true
    · simp [hb]
    · simp only [hb, if_false]
      cases hb2 : (!(drainCommands t.commands).2 &&
          (exposed_return_data l t.data).new_data_returned)
      · rfl
      · exact absurd hb2 hb
  refine ⟨hper, ?_⟩
  induction ticks generalizing lastHash with
  | nil => exact ⟨rfl, rfl⟩
  | cons t rest ih =>
    obtain ⟨hp, hl⟩ := workerTick_pushes lastHash t
    by_cases hterm : (workerTick lastHash t).terminated = true
    · have hdt : (drainCommands t.commands).2 = true := by
        by_cases hd : (drainCommands t.commands).2 = true
        · exact hd
        · exfalso
          have hd2 : (drainCommands t.commands).2 = false := by
            cases hb : (drainCommands t.commands).2
            · rfl
            · exact absurd hb hd
          have := workerTick_no_shutdown lastHash t
          rw [workerTick] at hterm
          rw [hd2] at hterm
          by_cases hn : (exposed_return_data lastHash t.data).new_data_returned = true <;>
            simp [hn] at hterm
      rw [hdt] at hp hl
      simp only [Bool.not_true, Bool.false_and] at hp hl
      simp only [runWorker, hterm, if_true]
      rw [hp, hl]
      exact ⟨rfl, rfl⟩
    · have hterm2 : (workerTick lastHash t).terminated = false := by
        cases hb : (workerTick lastHash t).terminated
        · rfl
        · exact absurd hb hterm
      obtain ⟨ih1, ih2⟩ := ih (workerTick lastHash t).lastHash
      simp only [runWorker, hterm2, Bool.false_eq_true, if_false]
      rw [pushedHashes_append, lastDelivered_append, noAdjacentDup_append]
      have hfirst : lastDelivered lastHash (pushedHashes (workerTick lastHash t).events) =
          (workerTick lastHash t).lastHash := by
        rw [hp, hl]
        by_cases hb : (!(drainCommands t.commands).2 &&
            (exposed_return_data lastHash t.data).new_data_returned) = true
        · simp [hb, lastDelivered]
        · simp only [hb, if_false]
          cases hb2 : (!(drainCommands t.commands).2 &&
              (exposed_return_data lastHash t.data).new_data_returned)
          · simp [hb2, lastDelivered]
          · exact absurd hb2 hb
      have hdup1 : noAdjacentDup lastHash (pushedHashes (workerTick lastHash t).events) = true := by
        rw [hp]
        by_cases hb : (!(drainCommands t.commands).2 &&
            (exposed_return_data lastHash t.data).new_data_returned) = true
        · have hn : (exposed_return_data lastHash t.data).new_data_returned = true :=
            (by simpa using hb : (drainCommands t.commands).2 = false ∧
              (exposed_return_data lastHash t.data).new_data_returned = true).2
          have hne : (some t.data.hash ≠ lastHash) := by
            have := hn
            rw [exposed_return_data] at this
            simpa using this
          simp [hb, noAdjacentDup, hne]
        · simp only [hb, if_false]
          cases hb2 : (!(drainCommands t.commands).2 &&
              (exposed_return_data lastHash t.data).new_data_returned)
          · rfl
          · exact absurd hb2 hb
      rw [hfirst, hdup1, ih2]
      exact ⟨ih1, by simp⟩
